import Mathlib

/-!
Verification of the Certificate Monkey infrastructure declaration
(`src/infrastructure/__main__.py`, a Pulumi program).

The program is a single linear build: read two configuration values,
declare a KMS key, a KMS alias, a DynamoDB table, an IAM policy document,
an IAM policy, and export a fixed set of outputs.  We embed it as pure
Lean functions:

* the Pulumi configuration bag is a key/value list, with `configGet`
  modelling `config.get(key, default)`;
* provider-assigned attributes that are only known after the apply phase
  (the key id and ARN of the KMS key, the table ARN, the policy ARN) are
  collected in a `Resolved` record and passed in explicitly, exactly as
  the program threads `kms_key.key_id`, `kms_key.arn`,
  `dynamodb_table.arn` and `app_policy.arn` between resources;
* the AWS region (`aws.get_region().name`) is an explicit parameter;
* each resource declaration becomes a Lean function named after the
  Python variable it binds.
-/

namespace CertificateMonkey

/-- A Pulumi configuration bag: an association list of string keys to
string values.  `config.get(key, default)` looks the key up and falls
back to the default. -/
abbrev Config := List (String × String)

/-- `config.get(key, default)` from the Pulumi SDK: the stored value if
the key is present, the default otherwise. -/
def configGet (cfg : Config) (key dflt : String) : String :=
  match cfg.lookup key with
  | some v => v
  | none => dflt

/-- `environment = config.get("environment", "dev")`. -/
def environment (cfg : Config) : String :=
  configGet cfg "environment" "dev"

/-- `table_name = config.get("table_name", f"certificate-monkey-{environment}")`. -/
def table_name (cfg : Config) : String :=
  configGet cfg "table_name" ("certificate-monkey-" ++ environment cfg)

/-- Provider-assigned attributes, resolved only by the external apply
phase.  `keyId`/`keyArn` belong to the `kms_key` declared in this build,
`tableArn` to `dynamodb_table`, `policyArn` to `app_policy`. -/
structure Resolved where
  keyId : String
  keyArn : String
  tableArn : String
  policyArn : String
deriving DecidableEq

/-- `aws.kms.Key` arguments as set by the program. -/
structure KmsKey where
  description : String
  deletion_window_in_days : Nat
  tags : List (String × String)
deriving DecidableEq

/-- `aws.kms.Alias` arguments as set by the program. -/
structure KmsAlias where
  name : String
  target_key_id : String
deriving DecidableEq

/-- `aws.dynamodb.TableAttributeArgs`. -/
structure TableAttributeArgs where
  name : String
  type : String
deriving DecidableEq

/-- `aws.dynamodb.TableGlobalSecondaryIndexArgs`. -/
structure TableGlobalSecondaryIndexArgs where
  name : String
  hash_key : String
  projection_type : String
deriving DecidableEq

/-- `aws.dynamodb.TableServerSideEncryptionArgs`. -/
structure TableServerSideEncryptionArgs where
  enabled : Bool
  kms_key_arn : String
deriving DecidableEq

/-- `aws.dynamodb.TablePointInTimeRecoveryArgs`. -/
structure TablePointInTimeRecoveryArgs where
  enabled : Bool
deriving DecidableEq

/-- `aws.dynamodb.Table` arguments as set by the program. -/
structure DynamoTable where
  name : String
  billing_mode : String
  hash_key : String
  attributes : List TableAttributeArgs
  global_secondary_indexes : List TableGlobalSecondaryIndexArgs
  server_side_encryption : TableServerSideEncryptionArgs
  point_in_time_recovery : TablePointInTimeRecoveryArgs
  tags : List (String × String)
deriving DecidableEq

/-- `aws.iam.GetPolicyDocumentStatementConditionArgs`; the source keyword
`variable` is a Lean keyword, hence the trailing underscore. -/
structure GetPolicyDocumentStatementConditionArgs where
  test : String
  variable_ : String
  values : List String
deriving DecidableEq

/-- `aws.iam.GetPolicyDocumentStatementArgs`. -/
structure GetPolicyDocumentStatementArgs where
  effect : String
  actions : List String
  resources : List String
  conditions : List GetPolicyDocumentStatementConditionArgs
deriving DecidableEq

/-- The result of `aws.iam.get_policy_document`. -/
structure PolicyDocument where
  statements : List GetPolicyDocumentStatementArgs
deriving DecidableEq

/-- `aws.iam.Policy` arguments as set by the program. -/
structure IamPolicy where
  name : String
  description : String
  policy : PolicyDocument
  tags : List (String × String)
deriving DecidableEq

/-- The KMS key declaration (`kms_key = aws.kms.Key(...)`). -/
def kms_key (cfg : Config) : KmsKey :=
  { description := "Certificate Monkey private key encryption"
    deletion_window_in_days := 7
    tags := [("Name", "certificate-monkey-" ++ environment cfg),
             ("Environment", environment cfg),
             ("Application", "certificate-monkey"),
             ("Purpose", "private-key-encryption")] }

/-- The KMS alias declaration (`kms_alias = aws.kms.Alias(...)`); its
`target_key_id` is `kms_key.key_id`, the provider-assigned id of the key
declared in this same build. -/
def kms_alias (cfg : Config) (r : Resolved) : KmsAlias :=
  { name := "alias/certificate-monkey-" ++ environment cfg
    target_key_id := r.keyId }

/-- The DynamoDB table declaration (`dynamodb_table = aws.dynamodb.Table(...)`). -/
def dynamodb_table (cfg : Config) (r : Resolved) : DynamoTable :=
  { name := table_name cfg
    billing_mode := "PAY_PER_REQUEST"
    hash_key := "id"
    attributes := [{ name := "id", type := "S" },
                   { name := "created_at", type := "S" }]
    global_secondary_indexes := [{ name := "created_at-index"
                                   hash_key := "created_at"
                                   projection_type := "ALL" }]
    server_side_encryption := { enabled := true, kms_key_arn := r.keyArn }
    point_in_time_recovery := { enabled := true }
    tags := [("Name", table_name cfg),
             ("Environment", environment cfg),
             ("Application", "certificate-monkey"),
             ("Purpose", "certificate-storage")] }

/-- The IAM policy document (`app_policy_document = aws.iam.get_policy_document(...)`). -/
def app_policy_document (r : Resolved) (region : String) : PolicyDocument :=
  { statements :=
      [{ effect := "Allow"
         actions := ["dynamodb:PutItem", "dynamodb:GetItem",
                     "dynamodb:UpdateItem", "dynamodb:DeleteItem",
                     "dynamodb:Scan"]
         resources := [r.tableArn, r.tableArn ++ "/index/*"]
         conditions := [] },
       { effect := "Allow"
         actions := ["kms:Encrypt", "kms:Decrypt"]
         resources := [r.keyArn]
         conditions := [{ test := "StringEquals"
                          variable_ := "kms:ViaService"
                          values := ["dynamodb." ++ region ++ ".amazonaws.com"] }] }] }

/-- The IAM policy declaration (`app_policy = aws.iam.Policy(...)`). -/
def app_policy (cfg : Config) (r : Resolved) (region : String) : IamPolicy :=
  { name := "certificate-monkey-" ++ environment cfg ++ "-policy"
    description := "IAM policy for Certificate Monkey application"
    policy := app_policy_document r region
    tags := [("Name", "certificate-monkey-" ++ environment cfg ++ "-policy"),
             ("Environment", environment cfg),
             ("Application", "certificate-monkey")] }

/-- A value bound to a Pulumi export: either a string or a string map. -/
inductive OutputValue where
  | str : String → OutputValue
  | map : List (String × String) → OutputValue
deriving DecidableEq

/-- The program's `pulumi.export` calls, in order: name together with the
exported value (resolved after apply). -/
def exports (cfg : Config) (r : Resolved) (region : String) :
    List (String × OutputValue) :=
  [("dynamodb_table_name", .str (dynamodb_table cfg r).name),
   ("dynamodb_table_arn", .str r.tableArn),
   ("kms_key_id", .str r.keyId),
   ("kms_key_arn", .str r.keyArn),
   ("kms_alias_name", .str (kms_alias cfg r).name),
   ("iam_policy_arn", .str r.policyArn),
   ("environment_variables",
     .map [("DYNAMODB_TABLE", (dynamodb_table cfg r).name),
           ("KMS_KEY_ID", (kms_alias cfg r).name),
           ("AWS_REGION", region)])]

/-- The spec's failure taxonomy for the builder. -/
inductive ConfigError where
  | emptyEnvironment
deriving DecidableEq

/-- Modelled from the spec: `buildKmsKey(env)` as §4.1 describes it, with
"empty environment string → `ConfigError`" as its only failure mode.  The
source has no such validation; this definition exists only to compare the
spec's words with the code. -/
def buildKmsKeySpec (cfg : Config) : Except ConfigError KmsKey :=
  if environment cfg = "" then .error .emptyEnvironment
  else .ok (kms_key cfg)

/-- A sample `Resolved` record used by witness theorems. -/
def rSample : Resolved :=
  { keyId := "1234abcd-12ab-34cd-56ef-1234567890ab"
    keyArn := "arn:aws:kms:us-east-1:111122223333:key/1234abcd"
    tableArn := "arn:aws:dynamodb:us-east-1:111122223333:table/certificate-monkey-dev"
    policyArn := "arn:aws:iam::111122223333:policy/certificate-monkey-dev-policy" }

/-- Every alias name the build produces starts with the reserved
`alias/` prefix, whatever the environment string is. -/
theorem alias_prefix (env : String) :
    "alias/".data <+: ("alias/certificate-monkey-" ++ env).data := by
  have h1 : ("alias/certificate-monkey-" ++ env).data =
      "alias/certificate-monkey-".data ++ env.data := String.data_append _ _
  have h2 : "alias/".data <+: "alias/certificate-monkey-".data := by decide
  exact h2.trans (h1 ▸ List.prefix_append _ _)

/-- C1: the built IAM policy document contains exactly two statements:
the first allows the five DynamoDB actions on the table ARN and the table
ARN with `/index/*` appended, and the second allows exactly `kms:Encrypt`
and `kms:Decrypt` on the KMS key ARN, guarded by a `StringEquals`
condition on `kms:ViaService` with value
`dynamodb.<region>.amazonaws.com` for whatever region is supplied. -/
theorem app_policy_document_two_statements (r : Resolved) (region : String) :
    (app_policy_document r region).statements =
      [{ effect := "Allow"
         actions := ["dynamodb:PutItem", "dynamodb:GetItem",
                     "dynamodb:UpdateItem", "dynamodb:DeleteItem",
                     "dynamodb:Scan"]
         resources := [r.tableArn, r.tableArn ++ "/index/*"]
         conditions := [] },
       { effect := "Allow"
         actions := ["kms:Encrypt", "kms:Decrypt"]
         resources := [r.keyArn]
         conditions := [{ test := "StringEquals"
                          variable_ := "kms:ViaService"
                          values := ["dynamodb." ++ region ++ ".amazonaws.com"] }] }] :=
  rfl

/-- C2: the exported `environment_variables` map binds `KMS_KEY_ID` to
the alias name `alias/certificate-monkey-<environment>`, the same string
as the exported `kms_alias_name`; under the AWS guarantee that a raw key
identifier never starts with the reserved `alias/` prefix, it never
equals the raw key identifier exported as `kms_key_id`. -/
theorem environment_variables_kms_key_id (cfg : Config) (r : Resolved)
    (region : String) (h : ¬ "alias/".data <+: r.keyId.data) :
    (exports cfg r region).lookup "environment_variables" =
      some (.map [("DYNAMODB_TABLE", table_name cfg),
                  ("KMS_KEY_ID", "alias/certificate-monkey-" ++ environment cfg),
                  ("AWS_REGION", region)]) ∧
    (kms_alias cfg r).name = "alias/certificate-monkey-" ++ environment cfg ∧
    (exports cfg r region).lookup "kms_alias_name" =
      some (.str ("alias/certificate-monkey-" ++ environment cfg)) ∧
    (exports cfg r region).lookup "kms_key_id" = some (.str r.keyId) ∧
    "alias/certificate-monkey-" ++ environment cfg ≠ r.keyId := by
  refine ⟨rfl, rfl, rfl, rfl, fun he => h ?_⟩
  exact he ▸ alias_prefix (environment cfg)

/-- Closed instance of C2's theorem at a concrete configuration, resolved
record and region. -/
theorem environment_variables_kms_key_id_witness :
    (¬ "alias/".data <+: rSample.keyId.data) ∧
    ((exports [] rSample "us-east-1").lookup "environment_variables" =
      some (.map [("DYNAMODB_TABLE", "certificate-monkey-dev"),
                  ("KMS_KEY_ID", "alias/certificate-monkey-dev"),
                  ("AWS_REGION", "us-east-1")]) ∧
     (kms_alias [] rSample).name = "alias/certificate-monkey-dev" ∧
     (exports [] rSample "us-east-1").lookup "kms_alias_name" =
       some (.str "alias/certificate-monkey-dev") ∧
     (exports [] rSample "us-east-1").lookup "kms_key_id" =
       some (.str rSample.keyId) ∧
     "alias/certificate-monkey-dev" ≠ rSample.keyId) :=
  ⟨by decide, environment_variables_kms_key_id [] rSample "us-east-1" (by decide)⟩

/-- C3: for every configuration the built DynamoDB table has server-side
encryption enabled with the KMS key's ARN and point-in-time recovery
enabled; no configuration value can disable either. -/
theorem dynamodb_table_sse_pitr (cfg : Config) (r : Resolved) :
    (dynamodb_table cfg r).server_side_encryption =
      { enabled := true, kms_key_arn := r.keyArn } ∧
    (dynamodb_table cfg r).point_in_time_recovery.enabled = true :=
  ⟨rfl, rfl⟩

/-- C4: the built table's declared name equals the `table_name` override
when the configuration supplies one, and equals
`certificate-monkey-<environment>` when no override is supplied. -/
theorem dynamodb_table_name_spec (cfg : Config) (r : Resolved) :
    (∀ t, cfg.lookup "table_name" = some t → (dynamodb_table cfg r).name = t) ∧
    (cfg.lookup "table_name" = none →
      (dynamodb_table cfg r).name = "certificate-monkey-" ++ environment cfg) := by
  constructor
  · intro t ht
    simp [dynamodb_table, table_name, configGet, ht]
  · intro ht
    simp [dynamodb_table, table_name, configGet, ht]

/-- Closed instance of C4's theorem: one configuration with an override
and one without. -/
theorem dynamodb_table_name_spec_witness :
    (dynamodb_table [("table_name", "custom-table")] rSample).name = "custom-table" ∧
    (dynamodb_table [("environment", "staging")] rSample).name =
      "certificate-monkey-staging" :=
  ⟨(dynamodb_table_name_spec [("table_name", "custom-table")] rSample).1
      "custom-table" (by decide),
   (dynamodb_table_name_spec [("environment", "staging")] rSample).2 (by decide)⟩

/-- C5: the built table's attribute names contain both `id` and
`created_at` (a superset of the table hash key and every GSI hash key,
the table hash key being `id`), and the table declares exactly one global
secondary index, whose hash key is `created_at` with projection type
`ALL`. -/
theorem dynamodb_table_attributes_gsi (cfg : Config) (r : Resolved) :
    (dynamodb_table cfg r).attributes.map TableAttributeArgs.name =
      ["id", "created_at"] ∧
    (dynamodb_table cfg r).hash_key = "id" ∧
    (dynamodb_table cfg r).hash_key ∈
      (dynamodb_table cfg r).attributes.map TableAttributeArgs.name ∧
    (dynamodb_table cfg r).global_secondary_indexes =
      [{ name := "created_at-index", hash_key := "created_at",
         projection_type := "ALL" }] ∧
    "created_at" ∈ (dynamodb_table cfg r).attributes.map TableAttributeArgs.name := by
  refine ⟨rfl, rfl, ?_, rfl, ?_⟩ <;> simp [dynamodb_table]

/-- C6 counterexample: with an empty environment string, building the
KMS key does not fail — the code has no validation and no `ConfigError`;
it unconditionally declares a key (here tagged
`Name=certificate-monkey-`), while the spec's modelled builder would
report `ConfigError.emptyEnvironment`. -/
theorem kms_key_empty_environment_no_error :
    buildKmsKeySpec [("environment", "")] =
      Except.error ConfigError.emptyEnvironment ∧
    kms_key [("environment", "")] =
      { description := "Certificate Monkey private key encryption"
        deletion_window_in_days := 7
        tags := [("Name", "certificate-monkey-"), ("Environment", ""),
                 ("Application", "certificate-monkey"),
                 ("Purpose", "private-key-encryption")] } :=
  ⟨rfl, rfl⟩

/-- C6 amended: building the KMS key never fails — the code performs no
validation of the environment string (empty included) and declares the
key unconditionally, with its fixed description, a seven-day deletion
window, and tags derived from whatever environment string is present. -/
theorem kms_key_total (cfg : Config) :
    (kms_key cfg).description = "Certificate Monkey private key encryption" ∧
    (kms_key cfg).deletion_window_in_days = 7 ∧
    (kms_key cfg).tags.lookup "Name" =
      some ("certificate-monkey-" ++ environment cfg) ∧
    (kms_key cfg).tags.lookup "Environment" = some (environment cfg) :=
  ⟨rfl, rfl, rfl, rfl⟩

/-- C7: the built alias's name is exactly
`alias/certificate-monkey-<environment>` (starting with the reserved
`alias/` prefix), and its `target_key_id` is `r.keyId` — the
provider-assigned key identifier of the `kms_key` declared in this same
build — so the alias is never dangling. -/
theorem kms_alias_spec (cfg : Config) (r : Resolved) :
    (kms_alias cfg r).name = "alias/certificate-monkey-" ++ environment cfg ∧
    "alias/".data <+: (kms_alias cfg r).name.data ∧
    (kms_alias cfg r).target_key_id = r.keyId :=
  ⟨rfl, alias_prefix (environment cfg), rfl⟩

/-- C8: the exported output set consists of exactly the seven names in
order, each bound to the corresponding resource attribute, and
`environment_variables` is a map with exactly the keys `DYNAMODB_TABLE`,
`KMS_KEY_ID` and `AWS_REGION` bound to the table name, the alias name
and the supplied region. -/
theorem exports_spec (cfg : Config) (r : Resolved) (region : String) :
    (exports cfg r region).map Prod.fst =
      ["dynamodb_table_name", "dynamodb_table_arn", "kms_key_id",
       "kms_key_arn", "kms_alias_name", "iam_policy_arn",
       "environment_variables"] ∧
    exports cfg r region =
      [("dynamodb_table_name", .str (table_name cfg)),
       ("dynamodb_table_arn", .str r.tableArn),
       ("kms_key_id", .str r.keyId),
       ("kms_key_arn", .str r.keyArn),
       ("kms_alias_name",
         .str ("alias/certificate-monkey-" ++ environment cfg)),
       ("iam_policy_arn", .str r.policyArn),
       ("environment_variables",
         .map [("DYNAMODB_TABLE", table_name cfg),
               ("KMS_KEY_ID", "alias/certificate-monkey-" ++ environment cfg),
               ("AWS_REGION", region)])] :=
  ⟨rfl, rfl⟩

/-- C9: the build is deterministic — any two configuration bags that
agree on the only two keys the program reads (`environment` and
`table_name`) produce identical resource declarations and an identical
output set, given the same region and the same provider-resolved
attributes. -/
theorem build_deterministic (c1 c2 : Config) (r : Resolved) (region : String)
    (henv : c1.lookup "environment" = c2.lookup "environment")
    (htab : c1.lookup "table_name" = c2.lookup "table_name") :
    kms_key c1 = kms_key c2 ∧
    kms_alias c1 r = kms_alias c2 r ∧
    dynamodb_table c1 r = dynamodb_table c2 r ∧
    app_policy c1 r region = app_policy c2 r region ∧
    exports c1 r region = exports c2 r region := by
  have he : environment c1 = environment c2 := by
    simp [environment, configGet, henv]
  have ht : table_name c1 = table_name c2 := by
    simp [table_name, configGet, htab, he]
  refine ⟨?_, ?_, ?_, ?_, ?_⟩ <;>
    simp [kms_key, kms_alias, dynamodb_table, app_policy,
          app_policy_document, exports, he, ht]

/-- Closed instance of C9's theorem: an extra, unread configuration key
does not change the build. -/
theorem build_deterministic_witness :
    (([("environment", "dev"), ("unread", "x")] : Config).lookup "environment" =
      ([("environment", "dev")] : Config).lookup "environment") ∧
    (([("environment", "dev"), ("unread", "x")] : Config).lookup "table_name" =
      ([("environment", "dev")] : Config).lookup "table_name") ∧
    (kms_key [("environment", "dev"), ("unread", "x")] =
      kms_key [("environment", "dev")] ∧
     kms_alias [("environment", "dev"), ("unread", "x")] rSample =
      kms_alias [("environment", "dev")] rSample ∧
     dynamodb_table [("environment", "dev"), ("unread", "x")] rSample =
      dynamodb_table [("environment", "dev")] rSample ∧
     app_policy [("environment", "dev"), ("unread", "x")] rSample "us-east-1" =
      app_policy [("environment", "dev")] rSample "us-east-1" ∧
     exports [("environment", "dev"), ("unread", "x")] rSample "us-east-1" =
      exports [("environment", "dev")] rSample "us-east-1") :=
  ⟨by decide, by decide,
   build_deterministic [("environment", "dev"), ("unread", "x")]
     [("environment", "dev")] rSample "us-east-1" (by decide) (by decide)⟩

/-- C10: the DynamoDB statement of the policy document grants exactly
`dynamodb:PutItem`, `dynamodb:GetItem`, `dynamodb:UpdateItem`,
`dynamodb:DeleteItem` and `dynamodb:Scan`; `dynamodb:Query` appears in
no statement of the document, even though the resources include the GSI
index wildcard. -/
theorem dynamodb_statement_actions (r : Resolved) (region : String) :
    (app_policy_document r region).statements.map
        GetPolicyDocumentStatementArgs.actions =
      [["dynamodb:PutItem", "dynamodb:GetItem", "dynamodb:UpdateItem",
        "dynamodb:DeleteItem", "dynamodb:Scan"],
       ["kms:Encrypt", "kms:Decrypt"]] ∧
    "dynamodb:Query" ∉
      ((app_policy_document r region).statements.map
        GetPolicyDocumentStatementArgs.actions).flatten ∧
    ((app_policy_document r region).statements.map
        GetPolicyDocumentStatementArgs.resources).head? =
      some [r.tableArn, r.tableArn ++ "/index/*"] := by
  refine ⟨rfl, ?_, rfl⟩
  simp [app_policy_document]

end CertificateMonkey
